import Mathlib

/-!
Shallow embedding of the RingoJS JSGI connector
(`src/modules/ringo/jsgi/connector.js`): request initialization, middleware
composition, the synchronous response commit path, and the asynchronous
write-listener drain loop. JavaScript objects are modelled by explicit
record/inductive types; servlet-side effects (setStatus, addHeader, output
writes, flushes) are modelled as explicit state threading; thrown JS errors
are modelled as `Except String` paired with the state reached at the throw
(a JS exception does not roll back earlier effects).
-/

namespace Connector

/-! ## Header values and header maps

A JSGI headers object maps header names to values. `writeHeaders`
distinguishes string values, array values, and everything else. -/

/-- A JavaScript header value: a string, an array of strings, or any other
value (modelled opaquely, since `writeHeaders` only tests
`typeof values === "string"` and `Array.isArray(values)`). -/
inductive HVal where
  | str (s : String)
  | list (vs : List String)
  | other
deriving DecidableEq

/-- A headers object, as an ordered association list (for-in over a plain
JS object visits string keys in insertion order). -/
def HeadersMap := List (String × HVal)

instance : DecidableEq HeadersMap := by
  unfold HeadersMap
  infer_instance

/-- Modelled from the spec: `Headers(headers).contains(name)` from
`ringo/utils/http` (that module is not under src/). Per the spec, the
sentinel check tests presence of the header name in the response headers,
with any value. -/
def headersContains (headers : HeadersMap) (name : String) : Bool :=
  headers.any (fun kv => kv.1 == name)

/-- Modelled from the spec: `headers.get(name)` from the `ringo/utils/http`
Headers wrapper (not under src/): fetch the value stored under a header
name. -/
def headersGet (headers : HeadersMap) (name : String) : Option HVal :=
  (headers.find? (fun kv => kv.1 == name)).map (fun kv => kv.2)

/-- Modelled from the spec: `getMimeParameter(value, "charset")` from
`ringo/utils/http` (not under src/) extracts the charset parameter of a
MIME header value. The textual parse is irrelevant to every claim, so the
extraction is kept abstract: the whole Content-Type string stands for the
selected charset, and `none` when the header is absent or not a string. -/
def getMimeParameter (value : Option HVal) : Option String :=
  match value with
  | some (HVal.str s) => some s
  | _ => none

/-! ## Body values and byte chunks -/

/-- One element produced by iterating a JSGI body: either already a
`Binary` (raw bytes) or a text value that `writeBody` converts with
`toByteString(charset)`. -/
inductive Part where
  | binary (bytes : List Nat)
  | text (s : String)
deriving DecidableEq

/-- Bytes handed to the servlet output stream. The text encoding itself is
uninterpreted: `encoded charset s` records that `s.toByteString(charset)`
was written (the `binary` module is not under src/). -/
inductive Bytes where
  | raw (bytes : List Nat)
  | encoded (charset : Option String) (s : String)
deriving DecidableEq

/-- The conversion `writeBody` applies to a part before writing it:
`part instanceof Binary` passes through, anything else goes through
`toByteString(charset)`. -/
def partToBytes (charset : Option String) : Part → Bytes
  | Part.binary b => Bytes.raw b
  | Part.text s => Bytes.encoded charset s

/-- A JSGI response body value. `iterable` models a value exposing
`forEach` (with an optional `close` hook that may emit trailing parts
through the writer it receives); `str` models a plain JS string (strings
have no `forEach`); `nullBody` models null/undefined. -/
inductive Body where
  | iterable (parts : List Part) (closeParts : Option (List Part))
  | str (s : String)
  | nullBody
deriving DecidableEq

/-- JS truthiness of a body value: objects are truthy, a string is truthy
iff non-empty, null/undefined are falsy. -/
def bodyTruthy : Body → Bool
  | Body.iterable _ _ => true
  | Body.str s => s != ""
  | Body.nullBody => false

/-- JS stringification of a body value, as used in the
body-not-iterable error message. -/
def jsShowBody : Body → String
  | Body.iterable _ _ => "[object Object]"
  | Body.str s => s
  | Body.nullBody => "null"

/-! ## The response descriptor -/

/-- The object a JSGI application returns: `{status, headers, body}`.
`status` is a JS number or absent (`none` models undefined/null);
`headers` is an object or absent. -/
structure JSResult where
  status : Option Int
  headers : Option HeadersMap
  body : Body
deriving DecidableEq

/-- JS truthiness of the destructured `status` field: absent or 0 is
falsy. -/
def statusTruthy : Option Int → Bool
  | none => false
  | some n => n != 0

/-- JS stringification of a result object ('No valid JSGI response: ' +
result); the descriptor is an object, so it stringifies as
"[object Object]". -/
def jsShowResult (_ : JSResult) : String := "[object Object]"

/-! ## The servlet response transport state -/

/-- Observable state of the servlet response: the committed flag and the
lists of setStatus calls, addHeader calls and output-stream writes, in
order. -/
structure Transport where
  committed : Bool
  statusSet : List Int
  headersAdded : List (String × String)
  output : List Bytes
deriving DecidableEq

/-- `servletResponse.setStatus(status)`. -/
def setStatus (tr : Transport) (s : Int) : Transport :=
  { tr with statusSet := tr.statusSet ++ [s] }

/-- `servletResponse.addHeader(key, value)`. -/
def addHeader (tr : Transport) (k v : String) : Transport :=
  { tr with headersAdded := tr.headersAdded ++ [(k, v)] }

/-- `output.write(part)` on the servlet output stream. -/
def writeOut (tr : Transport) (b : Bytes) : Transport :=
  { tr with output := tr.output ++ [b] }

/-- An empty transport state. -/
def trEmpty : Transport :=
  { committed := false, statusSet := [], headersAdded := [], output := [] }

/-! ## writeHeaders (connector.js lines 107-119) -/

/-- `writeHeaders(servletResponse, headers)`: for each entry, a string
value is split on newline and each piece added as a header line; an array
value adds one line per element; any other value is skipped. -/
def writeHeaders (tr : Transport) (headers : HeadersMap) : Transport :=
  headers.foldl
    (fun t kv =>
      match kv.2 with
      | HVal.str s => (s.splitOn ("\n")).foldl (fun u v => addHeader u kv.1 v) t
      | HVal.list vs => vs.foldl (fun u v => addHeader u kv.1 v) t
      | HVal.other => t)
    tr

/-! ## writeBody (connector.js lines 121-137) -/

/-- `writeBody(response, body, charset)`: if the body exposes `forEach`,
write every part (converted to bytes) to the output stream, then invoke
the `close` hook with the same writer if present; otherwise throw
"Response body doesn't implement forEach". The state at the throw is
returned unchanged (no part has been written). -/
def writeBody (tr : Transport) (body : Body) (charset : Option String) :
    Except String Unit × Transport :=
  match body with
  | Body.iterable parts closeParts =>
      let t1 := parts.foldl (fun t p => writeOut t (partToBytes charset p)) tr
      let t2 := match closeParts with
        | some cps => cps.foldl (fun t p => writeOut t (partToBytes charset p)) t1
        | none => t1
      (Except.ok (), t2)
  | b => (Except.error ("Response body doesn't implement forEach: " ++ jsShowBody b), tr)

/-! ## writeResponse and commitResponse (connector.js lines 83-105) -/

/-- `writeResponse(servletResponse, status, headers, body)`: set the
status, write the headers, determine the charset from the Content-Type
header, then write the body. -/
def writeResponse (tr : Transport) (status : Int) (headers : HeadersMap) (body : Body) :
    Except String Unit × Transport :=
  let t1 := setStatus tr status
  let t2 := writeHeaders t1 headers
  let charset := getMimeParameter (headersGet headers ("Content-Type"))
  writeBody t2 body charset

/-- `commitResponse(req, result)`: no-op when the request has entered
async mode; throw "No valid JSGI response" when status, headers or body is
falsy; skip writing when the response is already committed or the headers
contain the `X-JSGI-Skip-Response` sentinel; otherwise write the
response. -/
def commitResponse (asyncStarted : Bool) (result : JSResult) (tr : Transport) :
    Except String Unit × Transport :=
  if asyncStarted then (Except.ok (), tr)
  else
    match result.headers, statusTruthy result.status, bodyTruthy result.body with
    | some headers, true, true =>
        if !tr.committed && !headersContains headers ("X-JSGI-Skip-Response") then
          writeResponse tr ((result.status).getD 0) headers result.body
        else (Except.ok (), tr)
    | _, _, _ =>
        (Except.error ("No valid JSGI response: " ++ jsShowResult result), tr)

/-! ## initRequest (connector.js lines 55-72)

The dynamic property injection is modelled as explicit record state: the
`input` property definition, the memoized stream, and the errors binding.
A counter records how many times a stream was constructed. -/

/-- A JSGI request descriptor, restricted to the state `initRequest` and
the lazy `input` getter touch. `nextStreamId` feeds fresh stream
identities; `constructedCount` counts `new Stream(...)` constructions. -/
structure JSRequest where
  hasInputProp : Bool
  inputMemo : Option Nat
  errorsBound : Bool
  nextStreamId : Nat
  constructedCount : Nat
deriving DecidableEq

/-- `initRequest(request)`: skip if the `input` property is already
defined, otherwise define the lazy `input` getter and bind
`request.jsgi.errors`. -/
def initRequest (r : JSRequest) : JSRequest :=
  if r.hasInputProp then r
  else { r with hasInputProp := true, errorsBound := true }

/-- The lazy `input` getter: construct the stream on first access,
memoize it, and return the memoized stream on every later access. -/
def getInput (r : JSRequest) : Nat × JSRequest :=
  match r.inputMemo with
  | some s => (s, r)
  | none =>
      (r.nextStreamId,
       { r with inputMemo := some r.nextStreamId,
                nextStreamId := r.nextStreamId + 1,
                constructedCount := r.constructedCount + 1 })

/-! ## Middleware composition (connector.js lines 30-35, 213-232) -/

/-- `resolve(app)` in the case the claims exercise: an app or middleware
that is already a function is returned unchanged (connector.js line
221). -/
def resolve {H : Type} (app : H) : H := app

/-- `middlewareWrapper(inner, outer)`: wrap `inner` with the resolved
`outer` middleware. -/
def middlewareWrapper {H : Type} (inner : H) (outer : H → H) : H :=
  resolve outer inner

/-- JS `Array.prototype.reduceRight(f, init)`: fold from the last element
towards the first. -/
def reduceRight {A B : Type} (f : B → A → B) (xs : List A) (init : B) : B :=
  xs.reverse.foldl f init

/-- `middleware.reduceRight(middlewareWrapper, resolve(app))` from
`handleRequest` (connector.js line 34): compose a middleware stack around
a handler. -/
def composeMiddleware {H : Type} (middleware : List (H → H)) (app : H) : H :=
  reduceRight middlewareWrapper middleware (resolve app)

/-! ## The async output channel and the write-listener drain loop
(connector.js lines 242-266)

The servlet output stream in async mode is a non-blocking channel: each
`isReady()` call returns the next answer of an environment-supplied
readiness schedule (an exhausted schedule answers false and consumes
nothing). Writes and flushes are recorded in order. Queue chunks are
abstract byte arrays, identified by naturals. -/

/-- The non-blocking output channel: the remaining readiness answers, the
chunks written so far (in order), and the number of flushes. -/
structure Channel where
  readySeq : List Bool
  written : List Nat
  flushed : Nat
deriving DecidableEq

/-- `outStream.isReady()`: consume and return the next readiness answer;
an exhausted schedule answers false. -/
def chIsReady (ch : Channel) : Bool × Channel :=
  match ch.readySeq with
  | [] => (false, ch)
  | b :: rest => (b, { ch with readySeq := rest })

/-- `outStream.write(data)`. -/
def chWrite (ch : Channel) (d : Nat) : Channel :=
  { ch with written := ch.written ++ [d] }

/-- `outStream.flush()`. -/
def chFlush (ch : Channel) : Channel :=
  { ch with flushed := ch.flushed + 1 }

/-- The while loop of `onWritePossible`: while the queue is non-empty and
the channel is ready, poll one chunk and write it. (The source's
`if (!data) break` guards a null poll, which cannot occur here: the queue
was just seen non-empty and chunks are non-null.) -/
def drainQueue : List Nat → Channel → List Nat × Channel
  | [], ch => ([], ch)
  | d :: rest, ch =>
      let rc := chIsReady ch
      if rc.1 then drainQueue rest (chWrite rc.2 d) else (d :: rest, rc.2)

/-- `WriteListenerImpl.prototype.onWritePossible`: drain the queue, then,
if `autoFlush` is set and the channel is still ready, flush once. -/
def onWritePossible (autoFlush : Bool) (queue : List Nat) (ch : Channel) :
    List Nat × Channel :=
  let qc := drainQueue queue ch
  if autoFlush then
    let rc := chIsReady qc.2
    if rc.1 then (qc.1, chFlush rc.2) else (qc.1, rc.2)
  else qc

/-- Length of the leading run of `true` in a readiness schedule: the
number of consecutive successful `isReady()` polls it offers. -/
def leadingTrues : List Bool → Nat
  | true :: rest => leadingTrues rest + 1
  | _ => 0

/-- How many chunks one drain writes: it stops at the first unready poll
or when the queue empties, whichever comes first. -/
def drainCount (queue : List Nat) (ch : Channel) : Nat :=
  min (leadingTrues ch.readySeq) queue.length

/-- How many readiness answers one drain consumes: one per written chunk,
plus the final failing poll unless the loop ended because the queue
emptied. -/
def drainPolls (queue : List Nat) (ch : Channel) : Nat :=
  if queue.length ≤ drainCount queue ch then drainCount queue ch
  else drainCount queue ch + 1

/-! ## AsyncResponse creation (connector.js lines 148-171) -/

/-- The value passed as the `timeout` argument of `AsyncResponse`:
absent/undefined, null, a finite number, an infinity, or NaN. -/
inductive TimeoutArg where
  | undef
  | null
  | fin (ms : Int)
  | inf
  | nan
deriving DecidableEq

/-- Observable effects of `AsyncResponse` creation on the transport async
context: whether `startAsync` ran, the `setTimeout` calls in order, the
number of `addListener` calls, and the completed flag. -/
structure AsyncState where
  asyncStarted : Bool
  timeouts : List Int
  listeners : Nat
  completed : Bool
deriving DecidableEq

/-- The `request` argument of `AsyncResponse`: null/undefined, an object
whose `env` is missing, or a request carrying a transport environment. -/
inductive JSRequestArg where
  | nullReq
  | noEnv
  | withEnv
deriving DecidableEq

/-- `AsyncResponse(request, timeout, autoFlush)` creation effects: throw
"Invalid request argument" if the request or its env is falsy; otherwise
start async mode, register the timeout only when `timeout != null` (loose
equality, excluding undefined and null) and `isFinite(timeout)` holds, and
add the lifecycle listener. -/
def AsyncResponse (request : JSRequestArg) (timeout : TimeoutArg) :
    Except String AsyncState :=
  match request with
  | JSRequestArg.nullReq => Except.error ("Invalid request argument: null")
  | JSRequestArg.noEnv => Except.error ("Invalid request argument: [object Object]")
  | JSRequestArg.withEnv =>
      let ctx : AsyncState :=
        { asyncStarted := true, timeouts := [], listeners := 0, completed := false }
      let ctx := match timeout with
        | TimeoutArg.fin ms => { ctx with timeouts := ctx.timeouts ++ [ms] }
        | _ => ctx
      Except.ok { ctx with listeners := ctx.listeners + 1 }

/-! ## Concrete sample descriptors -/

/-- A response descriptor whose three fields are all present but whose
status is the falsy number 0. -/
def zeroStatusResult : JSResult :=
  { status := some 0,
    headers := some [("Content-Type", HVal.str "text/plain")],
    body := Body.iterable [Part.text "ok"] none }

/-- A response descriptor whose three fields are all present but whose
body is the falsy empty string. -/
def emptyBodyResult : JSResult :=
  { status := some 200,
    headers := some [("Content-Type", HVal.str "text/plain")],
    body := Body.str "" }

/-! ## Helper lemmas -/

/-- Folding `addHeader` over a value list appends one header line per
value, in order, all with the same name. -/
theorem foldl_addHeader (tr : Transport) (name : String) (vs : List String) :
    vs.foldl (fun u v => addHeader u name v) tr =
      { tr with headersAdded := tr.headersAdded ++ vs.map (fun v => (name, v)) } := by
  induction vs generalizing tr with
  | nil => simp
  | cons v rest ih =>
      rw [List.foldl_cons, ih]
      simp [addHeader, List.append_assoc]

/-- One `writeHeaders` step never touches the output stream. -/
theorem writeHeaders_output (tr : Transport) (headers : HeadersMap) :
    (writeHeaders tr headers).output = tr.output := by
  unfold HeadersMap at headers
  induction headers generalizing tr with
  | nil => rfl
  | cons kv rest ih =>
      obtain ⟨k, v⟩ := kv
      show (writeHeaders _ rest).output = _
      rw [ih]
      cases v <;> simp [foldl_addHeader]

/-- One `writeHeaders` step never touches the committed flag. -/
theorem writeHeaders_committed (tr : Transport) (headers : HeadersMap) :
    (writeHeaders tr headers).committed = tr.committed := by
  unfold HeadersMap at headers
  induction headers generalizing tr with
  | nil => rfl
  | cons kv rest ih =>
      obtain ⟨k, v⟩ := kv
      show (writeHeaders _ rest).committed = _
      rw [ih]
      cases v <;> simp [foldl_addHeader]

/-- `commitResponse` (non-async path) throws the invalid-response error and
leaves the transport untouched whenever one of the three truthiness tests
fails. -/
theorem commitResponse_invalid (result : JSResult) (tr : Transport)
    (h : result.headers = none ∨ statusTruthy result.status = false ∨
      bodyTruthy result.body = false) :
    commitResponse false result tr =
      (Except.error ("No valid JSGI response: " ++ jsShowResult result), tr) := by
  unfold commitResponse
  cases hh : result.headers with
  | none => simp [hh]
  | some headers =>
      cases hs : statusTruthy result.status with
      | false => simp [hh, hs]
      | true =>
          cases hb : bodyTruthy result.body with
          | false => simp [hh, hs, hb]
          | true => simp_all

/-! ## Claim theorems -/

/-- C2: for every middleware stack [m1, m2, m3] resolved around a handler h,
the composed handler equals m1 (m2 (m3 h)): `reduceRight` combines the stack
right-to-left, so the first-listed middleware is outermost and runs its
pre/post logic around everything else. -/
theorem middleware_stack_composes_right_to_left {Req Resp : Type}
    (m1 m2 m3 : (Req → Resp) → (Req → Resp)) (h : Req → Resp) :
    composeMiddleware [m1, m2, m3] h = m1 (m2 (m3 h)) := rfl

/-- C9: request initialization is idempotent (a second `initRequest` on an
already-initialized descriptor changes nothing), and the lazy input stream is
memoized: once accessed, every further access returns the same stream and the
same state (so no further stream is ever constructed), and a single access
constructs at most one stream. -/
theorem initRequest_idempotent_and_input_memoized (r : JSRequest) :
    initRequest (initRequest r) = initRequest r ∧
    getInput (getInput r).2 = ((getInput r).1, (getInput r).2) ∧
    (getInput r).2.constructedCount ≤ r.constructedCount + 1 := by
  refine ⟨?_, ?_, ?_⟩
  · unfold initRequest
    by_cases h : r.hasInputProp <;> simp [h]
  · cases h : r.inputMemo <;> simp [getInput, h]
  · cases h : r.inputMemo <;> simp [getInput, h]

/-- C10: `commitResponse` tests status, headers and body by JS truthiness, so
a descriptor whose three fields are all present but where status is 0, or
where the body is the empty string, is rejected with the invalid-response
error and the transport is left unchanged. -/
theorem commit_rejects_falsy_present_fields (tr : Transport) :
    commitResponse false zeroStatusResult tr =
      (Except.error ("No valid JSGI response: " ++ jsShowResult zeroStatusResult), tr) ∧
    commitResponse false emptyBodyResult tr =
      (Except.error ("No valid JSGI response: " ++ jsShowResult emptyBodyResult), tr) := by
  constructor <;> rfl

/-- C4 counterexample: a header entry whose value is a list is not rejected
as malformed: `writeHeaders` accepts it and emits one header line per list
element, in order. -/
theorem writeHeaders_list_value_accepted :
    writeHeaders trEmpty [("X-Test", HVal.list ["a", "b"])] =
      { committed := false, statusSet := [],
        headersAdded := [("X-Test", "a"), ("X-Test", "b")], output := [] } := rfl

/-- C4 (amended): a string header value is split on newline into one header
line per substring, same name, in order; a value that is neither a string nor
a list is skipped; a list value is accepted and produces one header line per
element, in order — no value is rejected as malformed. -/
theorem writeHeaders_value_handling (tr : Transport) (name s : String)
    (vs : List String) :
    writeHeaders tr [(name, HVal.str s)] =
      { tr with headersAdded :=
          tr.headersAdded ++ (s.splitOn ("\n")).map (fun v => (name, v)) } ∧
    writeHeaders tr [(name, HVal.other)] = tr ∧
    writeHeaders tr [(name, HVal.list vs)] =
      { tr with headersAdded := tr.headersAdded ++ vs.map (fun v => (name, v)) } := by
  refine ⟨?_, rfl, ?_⟩ <;> simp [writeHeaders, foldl_addHeader]

/-- C3: for every response descriptor missing one of status, headers or body,
the non-async commit path raises the invalid-response error and performs no
transport write: the transport state is returned exactly as it was. -/
theorem commit_missing_field_errors_without_writes (result : JSResult)
    (tr : Transport)
    (hmiss : result.status = none ∨ result.headers = none ∨
      result.body = Body.nullBody) :
    commitResponse false result tr =
      (Except.error ("No valid JSGI response: " ++ jsShowResult result), tr) := by
  apply commitResponse_invalid
  rcases hmiss with h | h | h
  · right; left; simp [statusTruthy, h]
  · left; exact h
  · right; right; simp [bodyTruthy, h]

/-- Witness for C3 at a concrete descriptor with a missing status. -/
theorem commit_missing_field_errors_without_writes_witness :
    commitResponse false
      { status := none, headers := some [], body := Body.iterable [] none }
      trEmpty =
      (Except.error ("No valid JSGI response: " ++
        jsShowResult { status := none, headers := some [],
                       body := Body.iterable [] none }), trEmpty) :=
  commit_missing_field_errors_without_writes _ _ (Or.inl rfl)

/-- C7: for every otherwise-valid response descriptor whose headers contain
the sentinel `X-JSGI-Skip-Response` header, the non-async commit path makes
no status, header or body write: the transport is returned exactly as the
application left it. -/
theorem commit_skips_on_sentinel_header (result : JSResult) (tr : Transport)
    (headers : HeadersMap)
    (hh : result.headers = some headers)
    (hs : statusTruthy result.status = true)
    (hb : bodyTruthy result.body = true)
    (hc : headersContains headers ("X-JSGI-Skip-Response") = true) :
    commitResponse false result tr = (Except.ok (), tr) := by
  unfold commitResponse
  simp [hh, hs, hb, hc]

/-- Witness for C7 at a concrete descriptor carrying the sentinel header. -/
theorem commit_skips_on_sentinel_header_witness :
    commitResponse false
      { status := some 200,
        headers := some [("X-JSGI-Skip-Response", HVal.str "1")],
        body := Body.iterable [] none }
      trEmpty = (Except.ok (), trEmpty) :=
  commit_skips_on_sentinel_header _ _ _ rfl (by decide) rfl (by decide)

/-- C8: a response descriptor whose body has no forEach capability (here a
non-empty plain string, which is truthy but not iterable) makes commit fail
with the body-not-iterable error naming the body value; status and headers
have already been set at that point, but not one byte has been written to the
output channel. -/
theorem commit_body_not_iterable_before_output (tr : Transport) (status : Int)
    (headers : HeadersMap) (s : String)
    (hst : status ≠ 0) (hs : s ≠ "")
    (hcm : tr.committed = false)
    (hsk : headersContains headers ("X-JSGI-Skip-Response") = false) :
    commitResponse false
        { status := some status, headers := some headers, body := Body.str s }
        tr =
      (Except.error ("Response body doesn't implement forEach: " ++ s),
        writeHeaders (setStatus tr status) headers) ∧
    (writeHeaders (setStatus tr status) headers).output = tr.output := by
  constructor
  · unfold commitResponse
    have h1 : statusTruthy (some status) = true := by simp [statusTruthy, hst]
    have h2 : bodyTruthy (Body.str s) = true := by simp [bodyTruthy, hs]
    simp [h1, h2, hcm, hsk, writeResponse, writeBody, jsShowBody]
  · rw [writeHeaders_output]; rfl

/-- Witness for C8 at a concrete descriptor with a plain-string body. -/
theorem commit_body_not_iterable_before_output_witness :
    (commitResponse false
        { status := some 200, headers := some [], body := Body.str "x" }
        trEmpty =
      (Except.error ("Response body doesn't implement forEach: " ++ "x"),
        writeHeaders (setStatus trEmpty 200) []) ∧
    (writeHeaders (setStatus trEmpty 200) []).output = trEmpty.output) :=
  commit_body_not_iterable_before_output trEmpty 200 [] "x"
    (by decide) (by decide) rfl rfl

/-- Exact characterization of the drain loop: it writes the first
`drainCount` chunks of the queue to the channel in order, leaves the rest
queued, consumes `drainPolls` readiness answers, and never flushes. -/
theorem drainQueue_spec (queue : List Nat) (ch : Channel) :
    drainQueue queue ch =
      (queue.drop (drainCount queue ch),
       { readySeq := ch.readySeq.drop (drainPolls queue ch),
         written := ch.written ++ queue.take (drainCount queue ch),
         flushed := ch.flushed }) := by
  induction queue generalizing ch with
  | nil =>
      obtain ⟨sched, w, f⟩ := ch
      simp [drainQueue, drainCount, drainPolls]
  | cons d rest ih =>
      obtain ⟨sched, w, f⟩ := ch
      cases sched with
      | nil =>
          show ((d :: rest : List Nat), (⟨[], w, f⟩ : Channel)) = _
          simp [drainCount, drainPolls, leadingTrues]
      | cons b rs =>
          cases b with
          | false =>
              show ((d :: rest : List Nat), (⟨rs, w, f⟩ : Channel)) = _
              simp [drainCount, drainPolls, leadingTrues]
          | true =>
              have hstep : drainQueue (d :: rest) ⟨true :: rs, w, f⟩
                  = drainQueue rest ⟨rs, w ++ [d], f⟩ := rfl
              have hmin : drainCount (d :: rest) ⟨true :: rs, w, f⟩
                  = drainCount rest ⟨rs, w ++ [d], f⟩ + 1 := by
                simp [drainCount, leadingTrues, Nat.succ_min_succ]
              have hpolls : drainPolls (d :: rest) ⟨true :: rs, w, f⟩
                  = drainPolls rest ⟨rs, w ++ [d], f⟩ + 1 := by
                unfold drainPolls
                rw [hmin]
                simp only [List.length_cons, Nat.add_le_add_iff_right]
                by_cases hc : rest.length ≤ drainCount rest ⟨rs, w ++ [d], f⟩ <;>
                  simp [hc]
              rw [hstep, ih, hmin, hpolls]
              simp [List.append_assoc]

/-- C5: full characterization of `onWritePossible`, however it is invoked:
it pops and writes chunks one at a time, in FIFO order, as long as the queue
is non-empty and the channel polls ready (the first `drainCount` chunks);
it stops at the first unready poll, leaving the remaining chunks queued;
and when `autoFlush` is set it polls once more at the end and flushes
exactly once provided that poll reports the channel still ready. -/
theorem onWritePossible_drains_in_order_then_flushes (autoFlush : Bool)
    (queue : List Nat) (ch : Channel) :
    onWritePossible autoFlush queue ch =
      (queue.drop (drainCount queue ch),
       { readySeq :=
           if autoFlush then (ch.readySeq.drop (drainPolls queue ch)).tail
           else ch.readySeq.drop (drainPolls queue ch),
         written := ch.written ++ queue.take (drainCount queue ch),
         flushed := ch.flushed +
           (if autoFlush && (ch.readySeq.drop (drainPolls queue ch)).headD false
            then 1 else 0) }) := by
  unfold onWritePossible
  rw [drainQueue_spec]
  cases autoFlush with
  | false => simp
  | true =>
      cases hs1 : ch.readySeq.drop (drainPolls queue ch) with
      | nil => simp [chIsReady, chFlush, hs1]
      | cons b t => cases b <;> simp [chIsReady, chFlush, hs1]

/-- C6 counterexample: creating an AsyncResponse without a timeout argument
registers no timeout at all with the async context — in particular not a
30000 ms one: `timeout != null` is false for undefined, so
`asyncContext.setTimeout` is never called and the timeouts list stays
empty. -/
theorem asyncresponse_no_default_timeout_registered :
    AsyncResponse JSRequestArg.withEnv TimeoutArg.undef =
      Except.ok { asyncStarted := true, timeouts := [], listeners := 1,
                  completed := false } := rfl

/-- C6 (amended): an explicitly passed finite timeout is registered with the
async context as given; when the timeout argument is absent, null, infinite
or NaN, no timeout is registered at all (the transport's own default
governs); and creation fails with the invalid-request error when the request
is null or lacks a transport environment. -/
theorem asyncresponse_timeout_registration (ms : Int) :
    AsyncResponse JSRequestArg.withEnv (TimeoutArg.fin ms) =
      Except.ok { asyncStarted := true, timeouts := [ms], listeners := 1,
                  completed := false } ∧
    AsyncResponse JSRequestArg.withEnv TimeoutArg.undef =
      Except.ok { asyncStarted := true, timeouts := [], listeners := 1,
                  completed := false } ∧
    AsyncResponse JSRequestArg.withEnv TimeoutArg.null =
      Except.ok { asyncStarted := true, timeouts := [], listeners := 1,
                  completed := false } ∧
    AsyncResponse JSRequestArg.withEnv TimeoutArg.inf =
      Except.ok { asyncStarted := true, timeouts := [], listeners := 1,
                  completed := false } ∧
    AsyncResponse JSRequestArg.withEnv TimeoutArg.nan =
      Except.ok { asyncStarted := true, timeouts := [], listeners := 1,
                  completed := false } ∧
    AsyncResponse JSRequestArg.nullReq (TimeoutArg.fin ms) =
      Except.error ("Invalid request argument: null") ∧
    AsyncResponse JSRequestArg.noEnv (TimeoutArg.fin ms) =
      Except.error ("Invalid request argument: [object Object]") :=
  ⟨rfl, rfl, rfl, rfl, rfl, rfl, rfl⟩

end Connector
